import Mathlib

/-!
# Verification of the age-bucket aggregation demo (Quantco/vectorization-tutorial)

Shallow embedding of the computational content of the tutorial notebooks:

* `vectorization07.ipynb` defines an age-bucket aggregation over the titanic
  table in several library dialects (`task_pandas`, `task_polars`,
  `task_sqlalchemy`, `task_sql`, ...).  Ages and survival indicators are
  modelled as `Option ℚ` (`none` is a SQL NULL / pandas NaN); floating point
  rounding modes of the underlying libraries are modelled exactly on ℚ
  (numpy rounds half to even, polars/duckdb round half away from zero).
* `vectorization02` (cells 3 and 4) compares a row-by-row loop with the
  vectorized `np.where` expression; both are embedded over lists.
-/

/-- An input row of the titanic table: `age` is a nullable float column,
`survived` a numeric column (nullable in general SQL/pandas semantics). -/
structure Row where
  age : Option ℚ
  survived : Option ℚ
deriving DecidableEq, Repr

/-- An output row of the aggregation.  The field `survival_likelyhood`
keeps the (misspelled) column name used by the source code. -/
structure OutRow where
  age_bucket : Option ℚ
  samples : ℕ
  survival_likelyhood : Option ℚ
deriving DecidableEq, Repr

/-- Round half to even (banker's rounding), the tie-break used by
`numpy.round` and hence by `pandas.Series.round`. -/
def roundHalfEven (x : ℚ) : ℤ :=
  let f : ℤ := ⌊x⌋
  let frac : ℚ := x - f
  if frac < 1/2 then f
  else if 1/2 < frac then f + 1
  else if f % 2 = 0 then f else f + 1

/-- Round half away from zero, the tie-break used by Rust's `f64::round`
(hence polars `round`) and by DuckDB's `round`. -/
def roundHalfAway (x : ℚ) : ℤ :=
  if 0 ≤ x then ⌊x + 1/2⌋ else ⌈x - 1/2⌉

/-- `numpy.round(x, d)`: scale by `10^d`, round half to even, scale back.
`pandas.Series.round` delegates to this. -/
def npRound (x : ℚ) (d : ℤ) : ℚ :=
  (roundHalfEven (x * (10:ℚ) ^ d) : ℚ) / (10:ℚ) ^ d

/-- `round(x, d)` of DuckDB (used through `sqlalchemy.func.round`):
scale by `10^d`, round half away from zero, scale back. -/
def duckRound (x : ℚ) (d : ℤ) : ℚ :=
  (roundHalfAway (x * (10:ℚ) ^ d) : ℚ) / (10:ℚ) ^ d

/-- Bucket column of `task_pandas`: `(titanic.age + 4.999).round(-1)`.
NaN propagates through arithmetic and rounding, hence `Option.map`. -/
def pandasBucket (age : Option ℚ) : Option ℚ :=
  age.map fun a => npRound (a + 4999/1000) (-1)

/-- Bucket column of `task_polars`:
`((pl.col("age") + 4.999) / 10).round() * 10` (null propagates). -/
def polarsBucket (age : Option ℚ) : Option ℚ :=
  age.map fun a => (roundHalfAway ((a + 4999/1000) / 10) : ℚ) * 10

/-- Bucket column of `task_sql`:
`round((titanic.age + 4.999) / CAST(10 AS NUMERIC)) * 10` (NULL propagates). -/
def sqlBucket (age : Option ℚ) : Option ℚ :=
  age.map fun a => (roundHalfAway ((a + 4999/1000) / 10) : ℚ) * 10

/-- Bucket column of `task_sqlalchemy`:
`sa.func.round(titanic.c.age + 4.999, -1)` (NULL propagates). -/
def sqlalchemyBucket (age : Option ℚ) : Option ℚ :=
  age.map fun a => duckRound (a + 4999/1000) (-1)

/-- Mean of the non-null values of a nullable column; null when every
value is null.  This is the common semantics of `pandas` `mean` (skipna),
polars `mean` and SQL `AVG`. -/
def optMean (vs : List (Option ℚ)) : Option ℚ :=
  let xs := vs.filterMap id
  if xs.isEmpty then none else some (xs.sum / xs.length)

/-- Pair every row with its bucket key (the `assign`/`with_columns`/
`mutate` step of the variants). -/
def bucketPairs (bucket : Option ℚ → Option ℚ) (rows : List Row) :
    List (Option ℚ × Row) :=
  rows.map fun r => (bucket r.age, r)

/-- The distinct bucket keys, in first-occurrence order (null included;
`groupby` variants then drop or keep the null key). -/
def groupKeys (pairs : List (Option ℚ × Row)) : List (Option ℚ) :=
  (pairs.map Prod.fst).dedup

/-- The aggregation applied to the group of key `k`:
`samples` counts the non-null entries of the bucket column inside the group
(pandas `("age_bucket", "count")`, polars `pl.col("age_bucket").count()`,
SQL `count(<bucket expr>)` all count non-null values), and
`survival_likelyhood` is the null-skipping mean of `survived`. -/
def outFor (pairs : List (Option ℚ × Row)) (k : Option ℚ) : OutRow :=
  let g := pairs.filter fun p => p.1 = k
  { age_bucket := k
    samples := g.countP fun p => p.1.isSome
    survival_likelyhood := optMean (g.map fun p => p.2.survived) }

/-- Ordering on nullable bucket keys with NULL sorted last
(`ORDER BY ... ASC NULLS LAST`, and pandas `sort_values` default). -/
def keyLEnl : Option ℚ → Option ℚ → Prop
  | none, none => True
  | none, some _ => False
  | some _, none => True
  | some x, some y => x ≤ y

/-- Ordering on nullable bucket keys with NULL sorted first
(polars `sort` default: `nulls_last=False`). -/
def keyLEnf : Option ℚ → Option ℚ → Prop
  | none, _ => True
  | some _, none => False
  | some x, some y => x ≤ y

instance : DecidableRel keyLEnl := fun a b => by
  cases a <;> cases b <;> simp only [keyLEnl] <;> infer_instance

instance : DecidableRel keyLEnf := fun a b => by
  cases a <;> cases b <;> simp only [keyLEnf] <;> infer_instance

/-- `task_pandas`: assign the bucket column, group by it (pandas `groupby`
drops null keys: `dropna=True` is the default), aggregate, sort ascending. -/
def task_pandas (titanic : List Row) : List OutRow :=
  let pairs := bucketPairs pandasBucket titanic
  let keys := (groupKeys pairs).filter fun k => k.isSome
  (List.insertionSort keyLEnl keys).map (outFor pairs)

/-- `task_polars`: add the bucket column, group by it (polars keeps the
null group), aggregate, sort by bucket (polars sorts nulls first). -/
def task_polars (titanic : List Row) : List OutRow :=
  let pairs := bucketPairs polarsBucket titanic
  let keys := groupKeys pairs
  (List.insertionSort keyLEnf keys).map (outFor pairs)

/-- `task_sql`: `GROUP BY` the bucket expression (SQL keeps the NULL
group), aggregate, `ORDER BY ... ASC NULLS LAST`. -/
def task_sql (titanic : List Row) : List OutRow :=
  let pairs := bucketPairs sqlBucket titanic
  let keys := groupKeys pairs
  (List.insertionSort keyLEnl keys).map (outFor pairs)

/-- `task_sqlalchemy`: same relational shape as `task_sql`, with the bucket
written as `round(age + 4.999, -1)`; DuckDB's default null ordering for
ascending `ORDER BY` is NULLS LAST. -/
def task_sqlalchemy (titanic : List Row) : List OutRow :=
  let pairs := bucketPairs sqlalchemyBucket titanic
  let keys := groupKeys pairs
  (List.insertionSort keyLEnl keys).map (outFor pairs)

/-- The pipedag flow of `vectorization07.ipynb`: stage `t1_raw_input` holds
the titanic table, stage `t2_transformed_data` the task outputs. -/
structure FlowState where
  t1_titanic : List Row
  t2_outputs : List (List OutRow)
deriving DecidableEq, Repr

/-- The embedded aggregation tasks wired into the flow (the notebook also
wires the transform/ibis dialects, which restate the same contract). -/
def pipelineTasks : List (List Row → List OutRow) :=
  [task_pandas, task_polars, task_sqlalchemy, task_sql]

/-- `get_pipeline`: read the input table into stage 1, then apply every task
to the stage-1 table and collect the fresh output tables in stage 2
(`out_tbls = [task(titanic) for task in tasks]`). -/
def get_pipeline (titanic : List Row) : FlowState :=
  let s1 : FlowState := { t1_titanic := titanic, t2_outputs := [] }
  { s1 with t2_outputs := pipelineTasks.map fun task => task s1.t1_titanic }

/-- A row of the small dataframe of `vectorization02`:
`pd.DataFrame(dict(int_col=[1,2,3], str_col=["a","b","c"]))`. -/
structure DfRow where
  int_col : ℤ
  str_col : String
deriving DecidableEq, Repr

/-- Branch computed for one row by the loop body of vectorization02 cell 3. -/
def rowValue (r : DfRow) : ℤ :=
  if r.str_col = "a" then r.int_col * 2 else r.int_col * 3

/-- One iteration of `for i, row in df.iterrows(): out[i] = ...`:
look up row `i` and write the branch value at index `i`. -/
def loopBody (df : List DfRow) (out : List ℤ) (i : ℕ) : List ℤ :=
  match df[i]? with
  | some row => out.set i (rowValue row)
  | none => out

/-- The row-by-row loop of vectorization02 cell 3: start from
`pd.Series(0, index=range(len(df)))` and assign each index in turn. -/
def loopVersion (df : List DfRow) : List ℤ :=
  (List.range df.length).foldl (loopBody df) (List.replicate df.length 0)

/-- `np.where(cond, tvals, fvals)`: elementwise choice between the two
fully evaluated branch columns. -/
def npWhere (cond : List Bool) (tvals fvals : List ℤ) : List ℤ :=
  (cond.zip (tvals.zip fvals)).map fun c => if c.1 then c.2.1 else c.2.2

/-- The vectorized version of vectorization02 cell 4:
`np.where(df["str_col"] == "a", df["int_col"] * 2, df["int_col"] * 3)`. -/
def whereVersion (df : List DfRow) : List ℤ :=
  npWhere (df.map fun r => r.str_col == "a")
    (df.map fun r => r.int_col * 2) (df.map fun r => r.int_col * 3)

instance : IsTrans (Option ℚ) keyLEnl where
  trans a b c h h' := by
    cases a <;> cases b <;> cases c <;> simp_all [keyLEnl]
    exact le_trans h h'

instance : IsTotal (Option ℚ) keyLEnl where
  total a b := by
    cases a <;> cases b <;> simp [keyLEnl]
    exact le_total _ _

instance : IsAntisymm (Option ℚ) keyLEnl where
  antisymm a b h h' := by
    cases a <;> cases b <;> simp_all [keyLEnl]
    exact le_antisymm h h'

instance : IsTrans (Option ℚ) keyLEnf where
  trans a b c h h' := by
    cases a <;> cases b <;> cases c <;> simp_all [keyLEnf]
    exact le_trans h h'

instance : IsTotal (Option ℚ) keyLEnf where
  total a b := by
    cases a <;> cases b <;> simp [keyLEnf]
    exact le_total _ _

instance : IsAntisymm (Option ℚ) keyLEnf where
  antisymm a b h h' := by
    cases a <;> cases b <;> simp_all [keyLEnf]
    exact le_antisymm h h'

/-! ## Evaluation lemmas for the rounding primitives -/

theorem roundHalfEven_of_lt {x : ℚ} {n : ℤ} (hn : ⌊x⌋ = n) (h : x - n < 1/2) :
    roundHalfEven x = n := by
  simp only [roundHalfEven, hn]
  rw [if_pos h]

theorem roundHalfEven_of_gt {x : ℚ} {n : ℤ} (hn : ⌊x⌋ = n) (h : 1/2 < x - n) :
    roundHalfEven x = n + 1 := by
  simp only [roundHalfEven, hn]
  rw [if_neg (by linarith), if_pos h]

theorem roundHalfAway_of_nonneg {x : ℚ} (h : 0 ≤ x) : roundHalfAway x = ⌊x + 1/2⌋ := by
  simp only [roundHalfAway, if_pos h]

/-- Away from the `.5` tie, the numpy and the polars/DuckDB rounding rules
agree (this is what the `+4.999` offset is designed to exploit). -/
theorem roundHalfEven_eq_roundHalfAway {x : ℚ} (h : x - ⌊x⌋ ≠ 1/2) :
    roundHalfEven x = roundHalfAway x := by
  have hfl : (⌊x⌋ : ℚ) ≤ x := Int.floor_le x
  have hfu : x < ⌊x⌋ + 1 := Int.lt_floor_add_one x
  rcases lt_or_gt_of_ne h with hlt | hgt
  · rw [roundHalfEven_of_lt rfl hlt]
    by_cases hx : 0 ≤ x
    · rw [roundHalfAway_of_nonneg hx]
      symm
      rw [Int.floor_eq_iff]
      constructor <;> push_cast <;> linarith
    · rw [roundHalfAway, if_neg hx]
      symm
      rw [Int.ceil_eq_iff]
      constructor <;> linarith
  · rw [roundHalfEven_of_gt rfl hgt]
    by_cases hx : 0 ≤ x
    · rw [roundHalfAway_of_nonneg hx]
      symm
      rw [Int.floor_eq_iff]
      constructor <;> push_cast <;> linarith
    · rw [roundHalfAway, if_neg hx]
      symm
      rw [Int.ceil_eq_iff]
      constructor <;> push_cast <;> linarith

/-- `numpy.round(x, -1)` is exactly `round(x / 10) * 10` with the half-even
tie-break. -/
theorem npRound_neg_one (x : ℚ) : npRound x (-1) = (roundHalfEven (x / 10) : ℚ) * 10 := by
  have h1 : (10:ℚ) ^ (-1:ℤ) = 1/10 := by norm_num
  rw [npRound, h1, mul_one_div, div_eq_mul_inv, one_div, inv_inv]

/-- DuckDB `round(x, -1)` is exactly `round(x / 10) * 10` with the
half-away-from-zero tie-break. -/
theorem duckRound_neg_one (x : ℚ) : duckRound x (-1) = (roundHalfAway (x / 10) : ℚ) * 10 := by
  have h1 : (10:ℚ) ^ (-1:ℤ) = 1/10 := by norm_num
  rw [duckRound, h1, mul_one_div, div_eq_mul_inv, one_div, inv_inv]

theorem pandasBucket_none : pandasBucket none = none := rfl

theorem pandasBucket_5 : pandasBucket (some 5) = some 10 := by
  rw [pandasBucket, Option.map_some', npRound_neg_one]
  rw [roundHalfEven_of_gt (x := ((5:ℚ) + 4999/1000) / 10) (n := 0)
    (by rw [Int.floor_eq_iff]; norm_num) (by norm_num)]
  norm_num

theorem pandasBucket_25 : pandasBucket (some 25) = some 30 := by
  rw [pandasBucket, Option.map_some', npRound_neg_one]
  rw [roundHalfEven_of_gt (x := ((25:ℚ) + 4999/1000) / 10) (n := 2)
    (by rw [Int.floor_eq_iff]; norm_num) (by norm_num)]
  norm_num

theorem polarsBucket_none : polarsBucket none = none := rfl

theorem polarsBucket_5 : polarsBucket (some 5) = some 10 := by
  rw [polarsBucket, Option.map_some']
  rw [roundHalfAway_of_nonneg (by norm_num)]
  norm_num [Int.floor_eq_iff]

theorem polarsBucket_25 : polarsBucket (some 25) = some 30 := by
  rw [polarsBucket, Option.map_some']
  rw [roundHalfAway_of_nonneg (by norm_num)]
  norm_num [Int.floor_eq_iff]

/-- The literal SQL text and the polars expression denote the same bucket
function. -/
theorem sqlBucket_eq_polarsBucket : sqlBucket = polarsBucket := rfl

/-! ## Structural lemmas about the grouping combinators -/

theorem bucketPairs_map_fst (bf : Option ℚ → Option ℚ) (rows : List Row) :
    (bucketPairs bf rows).map Prod.fst = rows.map fun r => bf r.age := by
  simp [bucketPairs, List.map_map]

theorem bucketPairs_map_snd (bf : Option ℚ → Option ℚ) (rows : List Row) :
    (bucketPairs bf rows).map (fun p => p.2) = rows := by
  simp only [bucketPairs, List.map_map]
  exact List.map_id rows

theorem bucketPairs_filter_snd (bf : Option ℚ → Option ℚ) (rows : List Row)
    (k : Option ℚ) :
    ((bucketPairs bf rows).filter fun p => p.1 = k).map (fun p => p.2) =
      rows.filter fun r => bf r.age = k := by
  induction rows with
  | nil => rfl
  | cons r t ih =>
    simp only [bucketPairs, List.map_cons, List.filter_cons] at *
    by_cases hc : bf r.age = k
    · simp [hc, ih]
    · simp [hc, ih]

theorem outFor_age_bucket (pairs : List (Option ℚ × Row)) (k : Option ℚ) :
    (outFor pairs k).age_bucket = k := rfl

/-- The group of a non-null key has as many counted samples as it has rows:
the counted column is the group key itself, which is non-null. -/
theorem outFor_samples_some (pairs : List (Option ℚ × Row)) (b : ℚ) :
    (outFor pairs (some b)).samples =
      List.countP (fun x => decide (x = some b)) (pairs.map Prod.fst) := by
  show (pairs.filter fun p => p.1 = some b).countP (fun p => p.1.isSome) = _
  rw [List.countP_eq_length.mpr ?all]
  case all =>
    intro p hp
    have := (List.mem_filter.mp hp).2
    simp only [decide_eq_true_eq] at this
    simp [this]
  rw [List.countP_map, ← List.countP_eq_length_filter]
  apply List.countP_congr
  intro p _
  simp [Function.comp]

/-- The null group counts zero samples: `count`/`COUNT` skip null values,
and inside the null group the counted bucket column is all null. -/
theorem outFor_samples_none (pairs : List (Option ℚ × Row)) :
    (outFor pairs none).samples = 0 := by
  show (pairs.filter fun p => p.1 = none).countP (fun p => p.1.isSome) = 0
  rw [List.countP_eq_zero]
  intro p hp
  have := (List.mem_filter.mp hp).2
  simp only [decide_eq_true_eq] at this
  simp [this]

theorem outFor_survival (bf : Option ℚ → Option ℚ) (rows : List Row)
    (k : Option ℚ) :
    (outFor (bucketPairs bf rows) k).survival_likelyhood =
      optMean ((rows.filter fun r => bf r.age = k).map Row.survived) := by
  show optMean (((bucketPairs bf rows).filter fun p => p.1 = k).map
    fun p => p.2.survived) = _
  rw [← bucketPairs_filter_snd bf rows k, List.map_map]
  rfl

/-- Dropping list entries on which a summand vanishes does not change a
sum of naturals. -/
theorem sum_map_filter_eq_of_zero {α : Type} (g : α → ℕ) (p : α → Bool)
    (l : List α) (h : ∀ x ∈ l, p x = false → g x = 0) :
    ((l.filter p).map g).sum = (l.map g).sum := by
  induction l with
  | nil => rfl
  | cons a t ih =>
    rw [List.filter_cons]
    by_cases hp : p a
    · simp only [hp, if_true, List.map_cons, List.sum_cons]
      rw [ih fun x hx hx' => h x (List.mem_cons_of_mem a hx) hx']
    · simp only [Bool.not_eq_true] at hp
      simp only [hp, Bool.false_eq_true, if_false, List.map_cons, List.sum_cons]
      rw [ih fun x hx hx' => h x (List.mem_cons_of_mem a hx) hx',
        h a (List.mem_cons_self a t) hp, zero_add]

/-- A non-empty constant list dedups to the single repeated element. -/
theorem dedup_eq_singleton_of_all_eq {α : Type} [DecidableEq α] (a : α) :
    ∀ l : List α, l ≠ [] → (∀ x ∈ l, x = a) → l.dedup = [a] := by
  intro l
  induction l with
  | nil => intro h; exact absurd rfl h
  | cons b t ih =>
    intro _ hall
    have hb : b = a := hall b (List.mem_cons_self b t)
    subst hb
    cases t with
    | nil => simp
    | cons c u =>
      have hc : c = b := hall c (by simp)
      subst hc
      rw [List.dedup_cons_of_mem (by simp)]
      exact ih (by simp) fun x hx => hall x (List.mem_cons_of_mem _ hx)

/-! ## C1: sum of `samples` -/

/-- C1 counterexample: on the one-row input whose `age` is null, the sum of
`samples` over the output rows is 0, not the input length 1 — pandas
`groupby` drops the null key entirely, and the SQL `count` of the bucket
expression counts no null values. -/
theorem samples_sum_ne_length_on_null_age :
    ((task_pandas [⟨none, some 0⟩]).map OutRow.samples).sum ≠
      ([⟨none, some 0⟩] : List Row).length ∧
    ((task_sql [⟨none, some 0⟩]).map OutRow.samples).sum ≠
      ([⟨none, some 0⟩] : List Row).length := by
  constructor
  · norm_num [task_pandas, bucketPairs, groupKeys, pandasBucket,
      List.insertionSort, List.dedup, List.pwFilter, List.filter]
  · norm_num [task_sql, bucketPairs, groupKeys, outFor, optMean, sqlBucket,
      List.insertionSort, List.orderedInsert, List.dedup, List.pwFilter,
      List.filter, List.countP, List.countP.go, List.filterMap, keyLEnl]

/-- C1 (amended): for every input, the sum of `samples` across the output
rows of `task_pandas` and of `task_sql` equals the number of input rows
whose `age` is non-null (rows with null `age` are dropped by pandas
`groupby` and counted as 0 by SQL `count` of the null bucket). -/
theorem samples_sum_eq_nonnull_age_count (rows : List Row) :
    ((task_pandas rows).map OutRow.samples).sum =
      rows.countP (fun r => r.age.isSome) ∧
    ((task_sql rows).map OutRow.samples).sum =
      rows.countP (fun r => r.age.isSome) := by
  constructor
  · simp only [task_pandas, groupKeys]
    rw [List.map_map]
    rw [((List.perm_insertionSort keyLEnl _).map (OutRow.samples ∘
      outFor (bucketPairs pandasBucket rows))).sum_eq]
    rw [List.map_congr_left (g := fun k => @List.count (Option ℚ)
        instBEqOfDecidableEq k ((bucketPairs pandasBucket rows).map Prod.fst)) ?congr]
    case congr =>
      intro k hk
      have hs : k.isSome := by simpa using (List.mem_filter.mp hk).2
      obtain ⟨b, rfl⟩ := Option.isSome_iff_exists.mp hs
      exact outFor_samples_some _ b
    trans ((bucketPairs pandasBucket rows).map Prod.fst).countP fun k => k.isSome
    · exact List.sum_map_count_dedup_filter_eq_countP _ _
    · rw [bucketPairs_map_fst, List.countP_map]
      apply List.countP_congr
      intro r _
      simp [pandasBucket, Function.comp]
  · simp only [task_sql, groupKeys]
    rw [List.map_map]
    rw [((List.perm_insertionSort keyLEnl _).map (OutRow.samples ∘
      outFor (bucketPairs sqlBucket rows))).sum_eq]
    rw [← sum_map_filter_eq_of_zero
      (OutRow.samples ∘ outFor (bucketPairs sqlBucket rows))
      (fun k => k.isSome) _ ?zero]
    case zero =>
      intro k _ hk
      cases k with
      | none => exact outFor_samples_none _
      | some b => simp at hk
    rw [List.map_congr_left (g := fun k => @List.count (Option ℚ)
        instBEqOfDecidableEq k ((bucketPairs sqlBucket rows).map Prod.fst)) ?congr]
    case congr =>
      intro k hk
      have hs : k.isSome := by simpa using (List.mem_filter.mp hk).2
      obtain ⟨b, rfl⟩ := Option.isSome_iff_exists.mp hs
      exact outFor_samples_some _ b
    trans ((bucketPairs sqlBucket rows).map Prod.fst).countP fun k => k.isSome
    · exact List.sum_map_count_dedup_filter_eq_countP _ _
    · rw [bucketPairs_map_fst, List.countP_map]
      apply List.countP_congr
      intro r _
      simp [sqlBucket, Function.comp]

/-! ## C2: the bucket formula -/

/-- C2: the bucket assigned to a non-null age is
`round((age + 4.999) / 10) * 10` (with the respective library's rounding
tie-break: numpy half-even for pandas, half-away-from-zero for polars);
null ages get a null bucket; age 5 falls in bucket 10. -/
theorem bucket_eq_round_offset_div_ten (a : ℚ) :
    pandasBucket none = none ∧ polarsBucket none = none ∧
    pandasBucket (some a) =
      some ((roundHalfEven ((a + 4999/1000) / 10) : ℚ) * 10) ∧
    polarsBucket (some a) =
      some ((roundHalfAway ((a + 4999/1000) / 10) : ℚ) * 10) ∧
    pandasBucket (some 5) = some 10 ∧ polarsBucket (some 5) = some 10 := by
  refine ⟨rfl, rfl, ?_, rfl, pandasBucket_5, polarsBucket_5⟩
  rw [pandasBucket, Option.map_some', npRound_neg_one]

/-! ## C3: distinctness and ordering of buckets -/

/-- C3 counterexample: `task_polars` places the null bucket FIRST
(polars `sort` default is nulls-first), so on a mixed input the
null-bucket row is not last. -/
theorem polars_null_bucket_not_last :
    (task_polars [⟨none, some 0⟩, ⟨some 5, some 1⟩]).map OutRow.age_bucket =
      [none, some 10] := by
  norm_num [task_polars, bucketPairs, groupKeys, outFor, polarsBucket_none,
    polarsBucket_5, List.insertionSort, List.orderedInsert, List.dedup,
    List.pwFilter, keyLEnf]

/-- C3 (amended): in every variant the output buckets are pairwise
distinct; `task_pandas`, `task_sql` and `task_sqlalchemy` are sorted
ascending with the null bucket last, while `task_polars` is sorted
ascending with the null bucket first. -/
theorem buckets_nodup_and_sorted (rows : List Row) :
    (((task_pandas rows).map OutRow.age_bucket).Nodup ∧
      List.Sorted keyLEnl ((task_pandas rows).map OutRow.age_bucket)) ∧
    (((task_sql rows).map OutRow.age_bucket).Nodup ∧
      List.Sorted keyLEnl ((task_sql rows).map OutRow.age_bucket)) ∧
    (((task_sqlalchemy rows).map OutRow.age_bucket).Nodup ∧
      List.Sorted keyLEnl ((task_sqlalchemy rows).map OutRow.age_bucket)) ∧
    (((task_polars rows).map OutRow.age_bucket).Nodup ∧
      List.Sorted keyLEnf ((task_polars rows).map OutRow.age_bucket)) := by
  have hmap : ∀ (pairs : List (Option ℚ × Row)) (keys : List (Option ℚ)),
      ∀ (r : Option ℚ → Option ℚ → Prop) (_ : DecidableRel r),
      ((List.insertionSort r keys).map (outFor pairs)).map OutRow.age_bucket =
        List.insertionSort r keys := by
    intro pairs keys r hr
    rw [List.map_map]
    exact List.map_id _
  refine ⟨⟨?_, ?_⟩, ⟨?_, ?_⟩, ⟨?_, ?_⟩, ⟨?_, ?_⟩⟩
  · show ((List.insertionSort keyLEnl _).map
      (outFor (bucketPairs pandasBucket rows))).map OutRow.age_bucket |>.Nodup
    rw [hmap _ _ keyLEnl inferInstance]
    exact ((List.perm_insertionSort keyLEnl _).nodup_iff).mpr
      ((List.nodup_dedup _).filter _)
  · show List.Sorted keyLEnl (((List.insertionSort keyLEnl _).map
      (outFor (bucketPairs pandasBucket rows))).map OutRow.age_bucket)
    rw [hmap _ _ keyLEnl inferInstance]
    exact List.sorted_insertionSort keyLEnl _
  · show ((List.insertionSort keyLEnl _).map
      (outFor (bucketPairs sqlBucket rows))).map OutRow.age_bucket |>.Nodup
    rw [hmap _ _ keyLEnl inferInstance]
    exact ((List.perm_insertionSort keyLEnl _).nodup_iff).mpr
      (List.nodup_dedup _)
  · show List.Sorted keyLEnl (((List.insertionSort keyLEnl _).map
      (outFor (bucketPairs sqlBucket rows))).map OutRow.age_bucket)
    rw [hmap _ _ keyLEnl inferInstance]
    exact List.sorted_insertionSort keyLEnl _
  · show ((List.insertionSort keyLEnl _).map
      (outFor (bucketPairs sqlalchemyBucket rows))).map OutRow.age_bucket |>.Nodup
    rw [hmap _ _ keyLEnl inferInstance]
    exact ((List.perm_insertionSort keyLEnl _).nodup_iff).mpr
      (List.nodup_dedup _)
  · show List.Sorted keyLEnl (((List.insertionSort keyLEnl _).map
      (outFor (bucketPairs sqlalchemyBucket rows))).map OutRow.age_bucket)
    rw [hmap _ _ keyLEnl inferInstance]
    exact List.sorted_insertionSort keyLEnl _
  · show ((List.insertionSort keyLEnf _).map
      (outFor (bucketPairs polarsBucket rows))).map OutRow.age_bucket |>.Nodup
    rw [hmap _ _ keyLEnf inferInstance]
    exact ((List.perm_insertionSort keyLEnf _).nodup_iff).mpr
      (List.nodup_dedup _)
  · show List.Sorted keyLEnf (((List.insertionSort keyLEnf _).map
      (outFor (bucketPairs polarsBucket rows))).map OutRow.age_bucket)
    rw [hmap _ _ keyLEnf inferInstance]
    exact List.sorted_insertionSort keyLEnf _

/-! ## C4: `survival_likelyhood` is the group mean -/

/-- C4: every output row's `survival_likelyhood` is the arithmetic mean of
the non-null `survived` values of the rows mapping to its bucket (null when
all are null), for the pandas and the sqlalchemy variant. -/
theorem survival_likelyhood_eq_group_mean (rows : List Row) (o : OutRow) :
    (o ∈ task_pandas rows →
      o.survival_likelyhood = optMean ((rows.filter fun r =>
        pandasBucket r.age = o.age_bucket).map Row.survived)) ∧
    (o ∈ task_sqlalchemy rows →
      o.survival_likelyhood = optMean ((rows.filter fun r =>
        sqlalchemyBucket r.age = o.age_bucket).map Row.survived)) := by
  constructor
  · intro hmem
    simp only [task_pandas] at hmem
    obtain ⟨k, _, rfl⟩ := List.mem_map.mp hmem
    rw [outFor_age_bucket]
    exact outFor_survival pandasBucket rows k
  · intro hmem
    simp only [task_sqlalchemy] at hmem
    obtain ⟨k, _, rfl⟩ := List.mem_map.mp hmem
    rw [outFor_age_bucket]
    exact outFor_survival sqlalchemyBucket rows k

/-- C4 witness: a concrete output row of `task_pandas` whose
`survival_likelyhood` is the mean of its bucket's `survived` values. -/
theorem survival_likelyhood_eq_group_mean_witness :
    (⟨some 10, 2, some (1/2)⟩ : OutRow) ∈
      task_pandas [⟨some 5, some 1⟩, ⟨some 5, some 0⟩] ∧
    (⟨some 10, 2, some (1/2)⟩ : OutRow).survival_likelyhood =
      optMean (([⟨some 5, some 1⟩, ⟨some 5, some 0⟩] : List Row).filter
        (fun r => pandasBucket r.age =
          (⟨some 10, 2, some (1/2)⟩ : OutRow).age_bucket) |>.map Row.survived) := by
  have he : task_pandas [⟨some 5, some 1⟩, ⟨some 5, some 0⟩] =
      [⟨some 10, 2, some (1/2)⟩] := by
    norm_num [task_pandas, bucketPairs, groupKeys, outFor, optMean,
      pandasBucket_5, List.insertionSort, List.orderedInsert, List.dedup,
      List.pwFilter, List.filter, List.countP, List.countP.go, List.filterMap,
      keyLEnl]
  have hm : (⟨some 10, 2, some (1/2)⟩ : OutRow) ∈
      task_pandas [⟨some 5, some 1⟩, ⟨some 5, some 0⟩] := by
    rw [he]
    exact List.mem_singleton.mpr rfl
  exact ⟨hm, (survival_likelyhood_eq_group_mean
    [⟨some 5, some 1⟩, ⟨some 5, some 0⟩] ⟨some 10, 2, some (1/2)⟩).1 hm⟩

/-! ## C5: no input validation -/

/-- C5 counterexample: a `survived` value of 5 — outside {0,1} — is not
rejected: `task_pandas` returns normally and the out-of-range value flows
into the mean. -/
theorem no_validation_error_on_out_of_range :
    task_pandas [⟨some 5, some 5⟩] = [⟨some 10, 1, some 5⟩] := by
  norm_num [task_pandas, bucketPairs, groupKeys, outFor, optMean,
    pandasBucket_5, List.insertionSort, List.orderedInsert, List.dedup,
    List.pwFilter, List.filter, List.countP, List.countP.go, List.filterMap,
    keyLEnl]

/-- C5 (amended): the aggregator performs no validation of `survived`: for
EVERY rational value `s` (in `{0,1}` or not) it returns normally, with the
value flowing unchecked into the mean; it is a total pure function. -/
theorem no_validation_any_survived (s : ℚ) :
    task_pandas [⟨some 5, some s⟩] = [⟨some 10, 1, some s⟩] := by
  norm_num [task_pandas, bucketPairs, groupKeys, outFor, optMean,
    pandasBucket_5, List.insertionSort, List.orderedInsert, List.dedup,
    List.pwFilter, List.filter, List.countP, List.countP.go, List.filterMap,
    keyLEnl]

/-! ## C6: all-null-age inputs -/

/-- C6 counterexample: on the one-row all-null-age input, `task_pandas`
emits NO output row (pandas `groupby` drops the null key), and `task_sql`
emits one row with `samples` 0, not 1 (SQL `count` skips nulls). -/
theorem all_null_age_cex :
    task_pandas [⟨none, some 1⟩] = [] ∧
    task_sql [⟨none, some 1⟩] = [⟨none, 0, some 1⟩] := by
  constructor
  · norm_num [task_pandas, bucketPairs, groupKeys, pandasBucket,
      List.insertionSort, List.dedup, List.pwFilter, List.filter]
  · norm_num [task_sql, bucketPairs, groupKeys, outFor, optMean, sqlBucket,
      List.insertionSort, List.orderedInsert, List.dedup, List.pwFilter,
      List.filter, List.countP, List.countP.go, List.filterMap, keyLEnl]

/-- C6 (amended): a non-empty input whose ages are all null yields NO
output row from `task_pandas`, and from `task_sql` exactly one row with a
null bucket, `samples = 0` and `survival_likelyhood` the mean of the
`survived` values. -/
theorem all_null_age_output (rows : List Row) (hne : rows ≠ [])
    (hall : ∀ r ∈ rows, r.age = none) :
    task_pandas rows = [] ∧
    task_sql rows = [⟨none, 0, optMean (rows.map Row.survived)⟩] := by
  have hdedP : ((bucketPairs pandasBucket rows).map Prod.fst).dedup = [none] := by
    apply dedup_eq_singleton_of_all_eq
    · rw [bucketPairs_map_fst]
      simpa using hne
    · rw [bucketPairs_map_fst]
      intro x hx
      obtain ⟨r, hr, rfl⟩ := List.mem_map.mp hx
      rw [hall r hr]
      rfl
  have hdedS : ((bucketPairs sqlBucket rows).map Prod.fst).dedup = [none] := by
    apply dedup_eq_singleton_of_all_eq
    · rw [bucketPairs_map_fst]
      simpa using hne
    · rw [bucketPairs_map_fst]
      intro x hx
      obtain ⟨r, hr, rfl⟩ := List.mem_map.mp hx
      rw [hall r hr]
      rfl
  constructor
  · show (List.insertionSort keyLEnl
      ((groupKeys (bucketPairs pandasBucket rows)).filter fun k => k.isSome)).map
        (outFor (bucketPairs pandasBucket rows)) = []
    rw [groupKeys, hdedP]
    rfl
  · show (List.insertionSort keyLEnl
      (groupKeys (bucketPairs sqlBucket rows))).map
        (outFor (bucketPairs sqlBucket rows)) = _
    rw [groupKeys, hdedS]
    show [outFor (bucketPairs sqlBucket rows) none] = _
    have hf : rows.filter (fun r => sqlBucket r.age = none) = rows := by
      apply List.filter_eq_self.mpr
      intro r hr
      rw [hall r hr]
      simp [sqlBucket]
    have hsamp := outFor_samples_none (bucketPairs sqlBucket rows)
    have hsurv : (outFor (bucketPairs sqlBucket rows) none).survival_likelyhood =
        optMean (rows.map Row.survived) := by
      rw [outFor_survival, hf]
    have hab : (outFor (bucketPairs sqlBucket rows) none).age_bucket = none := rfl
    cases hout : outFor (bucketPairs sqlBucket rows) none with
    | mk a b c =>
      rw [hout] at hsamp hsurv hab
      simp only at hsamp hsurv hab
      rw [hsamp, hsurv, hab]

/-- C6 witness: the amended statement instantiated at a concrete two-row
all-null-age input. -/
theorem all_null_age_output_witness :
    (([⟨none, some 1⟩, ⟨none, some 0⟩] : List Row) ≠ [] ∧
      ∀ r ∈ ([⟨none, some 1⟩, ⟨none, some 0⟩] : List Row), r.age = none) ∧
    (task_pandas [⟨none, some 1⟩, ⟨none, some 0⟩] = [] ∧
      task_sql [⟨none, some 1⟩, ⟨none, some 0⟩] =
        [⟨none, 0, optMean (([⟨none, some 1⟩, ⟨none, some 0⟩] : List Row).map
          Row.survived)⟩]) := by
  have h1 : ([⟨none, some 1⟩, ⟨none, some 0⟩] : List Row) ≠ [] := by simp
  have h2 : ∀ r ∈ ([⟨none, some 1⟩, ⟨none, some 0⟩] : List Row), r.age = none := by
    intro r hr
    simp only [List.mem_cons, List.not_mem_nil, or_false] at hr
    rcases hr with rfl | rfl <;> rfl
  exact ⟨⟨h1, h2⟩, all_null_age_output _ h1 h2⟩

/-! ## C7: determinism -/

/-- C7: the aggregation variants are deterministic — equal inputs give
equal outputs (each variant is a pure function of the input rows). -/
theorem aggregation_deterministic (r1 r2 : List Row) (h : r1 = r2) :
    task_pandas r1 = task_pandas r2 ∧ task_polars r1 = task_polars r2 ∧
    task_sqlalchemy r1 = task_sqlalchemy r2 ∧ task_sql r1 = task_sql r2 := by
  subst h
  exact ⟨rfl, rfl, rfl, rfl⟩

/-- C7 witness: determinism at a concrete input. -/
theorem aggregation_deterministic_witness :
    ([⟨some 5, some 1⟩] : List Row) = [⟨some 5, some 1⟩] ∧
    (task_pandas [⟨some 5, some 1⟩] = task_pandas [⟨some 5, some 1⟩] ∧
      task_polars [⟨some 5, some 1⟩] = task_polars [⟨some 5, some 1⟩] ∧
      task_sqlalchemy [⟨some 5, some 1⟩] = task_sqlalchemy [⟨some 5, some 1⟩] ∧
      task_sql [⟨some 5, some 1⟩] = task_sql [⟨some 5, some 1⟩]) :=
  ⟨rfl, aggregation_deterministic _ _ rfl⟩

/-! ## C8: equivalence of the pandas, polars and SQL variants -/

/-- C8 counterexample: on inputs with a null age the three variants do NOT
produce the same output relation: pandas drops the null-bucket row that SQL
keeps, and polars orders the null bucket first where SQL orders it last. -/
theorem variants_differ_on_null_age :
    task_pandas [⟨none, some 0⟩] ≠ task_sql [⟨none, some 0⟩] ∧
    (task_polars [⟨none, some 0⟩, ⟨some 5, some 1⟩]).map OutRow.age_bucket ≠
      (task_sql [⟨none, some 0⟩, ⟨some 5, some 1⟩]).map OutRow.age_bucket := by
  constructor
  · have h1 : task_pandas [⟨none, some 0⟩] = [] := by
      norm_num [task_pandas, bucketPairs, groupKeys, pandasBucket,
        List.insertionSort, List.dedup, List.pwFilter, List.filter]
    have h2 : task_sql [⟨none, some 0⟩] = [⟨none, 0, some 0⟩] := by
      norm_num [task_sql, bucketPairs, groupKeys, outFor, optMean, sqlBucket,
        List.insertionSort, List.orderedInsert, List.dedup, List.pwFilter,
        List.filter, List.countP, List.countP.go, List.filterMap, keyLEnl]
    rw [h1, h2]
    simp
  · have h1 : (task_polars [⟨none, some 0⟩, ⟨some 5, some 1⟩]).map
        OutRow.age_bucket = [none, some 10] := by
      norm_num [task_polars, bucketPairs, groupKeys, outFor, polarsBucket_none,
        polarsBucket_5, List.insertionSort, List.orderedInsert, List.dedup,
        List.pwFilter, keyLEnf]
    have h2 : (task_sql [⟨none, some 0⟩, ⟨some 5, some 1⟩]).map
        OutRow.age_bucket = [some 10, none] := by
      norm_num [task_sql, sqlBucket_eq_polarsBucket, bucketPairs, groupKeys,
        outFor, polarsBucket_none, polarsBucket_5, List.insertionSort,
        List.orderedInsert, List.dedup, List.pwFilter, keyLEnl]
    rw [h1, h2]
    simp

/-- C8 (amended): the pandas, polars and SQL variants produce identical
output (same rows, same order) on every input in which every `age` is
non-null and no `(age + 4.999) / 10` falls exactly on a rounding tie, so
that the half-even and half-away-from-zero roundings agree; they differ in
general (null handling, and tie inputs). -/
theorem variants_agree_on_nonnull_tiefree (rows : List Row)
    (hnn : ∀ r ∈ rows, r.age ≠ none)
    (htie : ∀ r ∈ rows, ∀ a : ℚ, r.age = some a →
      (a + 4999/1000) / 10 - (⌊(a + 4999/1000) / 10⌋ : ℚ) ≠ 1/2) :
    task_pandas rows = task_polars rows ∧
    task_polars rows = task_sql rows := by
  have hbf : ∀ r ∈ rows, pandasBucket r.age = polarsBucket r.age := by
    intro r hr
    obtain ⟨a, ha⟩ := Option.ne_none_iff_exists'.mp (hnn r hr)
    rw [ha, pandasBucket, polarsBucket, Option.map_some', Option.map_some',
      npRound_neg_one, roundHalfEven_eq_roundHalfAway (htie r hr a ha)]
  have hpairs : bucketPairs pandasBucket rows = bucketPairs polarsBucket rows := by
    apply List.map_congr_left
    intro r hr
    rw [hbf r hr]
  have hsomeK : ∀ k ∈ groupKeys (bucketPairs polarsBucket rows), k.isSome := by
    intro k hk
    rw [groupKeys] at hk
    have hk' := List.mem_dedup.mp hk
    rw [bucketPairs_map_fst] at hk'
    obtain ⟨r, hr, rfl⟩ := List.mem_map.mp hk'
    obtain ⟨a, ha⟩ := Option.ne_none_iff_exists'.mp (hnn r hr)
    rw [ha]
    rfl
  have hfilter : (groupKeys (bucketPairs polarsBucket rows)).filter
      (fun k => k.isSome) = groupKeys (bucketPairs polarsBucket rows) :=
    List.filter_eq_self.mpr fun k hk => by simpa using hsomeK k hk
  have hsort : List.insertionSort keyLEnl (groupKeys (bucketPairs polarsBucket rows)) =
      List.insertionSort keyLEnf (groupKeys (bucketPairs polarsBucket rows)) := by
    apply List.eq_of_perm_of_sorted (r := keyLEnl)
      ((List.perm_insertionSort keyLEnl _).trans
        (List.perm_insertionSort keyLEnf _).symm)
      (List.sorted_insertionSort keyLEnl _)
    have h2 := List.sorted_insertionSort keyLEnf
      (groupKeys (bucketPairs polarsBucket rows))
    refine h2.imp_of_mem ?_
    intro a b ha hb hab
    have ha' := hsomeK a ((List.perm_insertionSort keyLEnf _).subset ha)
    have hb' := hsomeK b ((List.perm_insertionSort keyLEnf _).subset hb)
    obtain ⟨x, rfl⟩ := Option.isSome_iff_exists.mp ha'
    obtain ⟨y, rfl⟩ := Option.isSome_iff_exists.mp hb'
    exact hab
  constructor
  · show (List.insertionSort keyLEnl ((groupKeys (bucketPairs pandasBucket rows)).filter
      fun k => k.isSome)).map (outFor (bucketPairs pandasBucket rows)) = _
    rw [hpairs, hfilter, hsort]
    rfl
  · show (List.insertionSort keyLEnf (groupKeys (bucketPairs polarsBucket rows))).map
      (outFor (bucketPairs polarsBucket rows)) = _
    rw [← hsort]
    rfl

/-- C8 witness: the three variants agree on a concrete non-null, tie-free
input. -/
theorem variants_agree_on_nonnull_tiefree_witness :
    ((∀ r ∈ ([⟨some 5, some 1⟩, ⟨some 25, some 0⟩] : List Row), r.age ≠ none) ∧
      (∀ r ∈ ([⟨some 5, some 1⟩, ⟨some 25, some 0⟩] : List Row), ∀ a : ℚ,
        r.age = some a →
        (a + 4999/1000) / 10 - (⌊(a + 4999/1000) / 10⌋ : ℚ) ≠ 1/2)) ∧
    (task_pandas [⟨some 5, some 1⟩, ⟨some 25, some 0⟩] =
        task_polars [⟨some 5, some 1⟩, ⟨some 25, some 0⟩] ∧
      task_polars [⟨some 5, some 1⟩, ⟨some 25, some 0⟩] =
        task_sql [⟨some 5, some 1⟩, ⟨some 25, some 0⟩]) := by
  have hnn : ∀ r ∈ ([⟨some 5, some 1⟩, ⟨some 25, some 0⟩] : List Row),
      r.age ≠ none := by
    intro r hr
    simp only [List.mem_cons, List.not_mem_nil, or_false] at hr
    rcases hr with rfl | rfl <;> simp
  have htie : ∀ r ∈ ([⟨some 5, some 1⟩, ⟨some 25, some 0⟩] : List Row),
      ∀ a : ℚ, r.age = some a →
      (a + 4999/1000) / 10 - (⌊(a + 4999/1000) / 10⌋ : ℚ) ≠ 1/2 := by
    intro r hr a ha
    simp only [List.mem_cons, List.not_mem_nil, or_false] at hr
    rcases hr with rfl | rfl
    · obtain rfl : (5:ℚ) = a := Option.some.inj ha
      have h0 : ⌊((5:ℚ) + 4999/1000) / 10⌋ = 0 := by
        rw [Int.floor_eq_iff]; norm_num
      rw [h0]
      norm_num
    · obtain rfl : (25:ℚ) = a := Option.some.inj ha
      have h0 : ⌊((25:ℚ) + 4999/1000) / 10⌋ = 2 := by
        rw [Int.floor_eq_iff]; norm_num
      rw [h0]
      norm_num
  exact ⟨⟨hnn, htie⟩, variants_agree_on_nonnull_tiefree _ hnn htie⟩

/-! ## C9: the input table is left unchanged -/

/-- C9: running the pipeline leaves the stage-1 input table untouched —
every task reads `titanic` and produces a fresh output table; the input
binding, and each of its rows, is unchanged afterwards. -/
theorem pipeline_preserves_input (titanic : List Row) :
    (get_pipeline titanic).t1_titanic = titanic ∧
    ∀ i : ℕ, ((get_pipeline titanic).t1_titanic)[i]? = titanic[i]? :=
  ⟨rfl, fun _ => rfl⟩

/-! ## C10: loop vs np.where (vectorization02) -/

theorem whereVersion_eq_map (df : List DfRow) : whereVersion df = df.map rowValue := by
  induction df with
  | nil => rfl
  | cons d t ih =>
    simp only [whereVersion, npWhere, List.map_cons, List.zip_cons_cons] at *
    by_cases h : d.str_col = "a" <;> simp [rowValue, h, ih]

theorem loopBody_length (df : List DfRow) (out : List ℤ) (i : ℕ) :
    (loopBody df out i).length = out.length := by
  rw [loopBody]
  cases df[i]? <;> simp

theorem foldl_loopBody_length (df : List DfRow) :
    ∀ (m : ℕ) (out : List ℤ),
      ((List.range m).foldl (loopBody df) out).length = out.length := by
  intro m
  induction m with
  | zero => intro out; rfl
  | succ n ih =>
    intro out
    rw [List.range_succ, List.foldl_append, List.foldl_cons, List.foldl_nil,
      loopBody_length, ih]

theorem foldl_loopBody_getElem (df : List DfRow) :
    ∀ m : ℕ, m ≤ df.length → ∀ out : List ℤ, out.length = df.length →
      ∀ j : ℕ, ((List.range m).foldl (loopBody df) out)[j]? =
        if j < m then (df.map rowValue)[j]? else out[j]? := by
  intro m
  induction m with
  | zero =>
    intro _ out _ j
    simp
  | succ n ih =>
    intro hm out hlen j
    rw [List.range_succ, List.foldl_append, List.foldl_cons, List.foldl_nil]
    have hn : n < df.length := hm
    rw [loopBody, List.getElem?_eq_getElem hn]
    simp only
    rw [List.getElem?_set]
    rw [foldl_loopBody_length df n out, hlen]
    by_cases hij : n = j
    · subst hij
      rw [if_pos rfl, if_pos hn, if_pos (Nat.lt_succ_self n)]
      rw [List.getElem?_map, List.getElem?_eq_getElem hn]
      rfl
    · rw [if_neg hij, ih (Nat.le_of_succ_le hm) out hlen j]
      by_cases hj : j < n
      · rw [if_pos hj, if_pos (Nat.lt_succ_of_lt hj)]
      · have hj' : ¬ j < n + 1 := by omega
        rw [if_neg hj, if_neg hj']

theorem loopVersion_eq_map (df : List DfRow) : loopVersion df = df.map rowValue := by
  apply List.ext_getElem?
  intro j
  rw [loopVersion, foldl_loopBody_getElem df df.length le_rfl _ (by simp) j]
  by_cases hj : j < df.length
  · rw [if_pos hj]
  · rw [if_neg hj]
    rw [List.getElem?_eq_none (by simpa using Nat.le_of_not_lt hj),
      List.getElem?_eq_none (by simp [Nat.le_of_not_lt hj])]

/-- C10: the row-by-row loop of vectorization02 cell 3 and the vectorized
`np.where` expression of cell 4 compute the same series, index by index. -/
theorem loop_eq_npWhere (df : List DfRow) :
    loopVersion df = whereVersion df ∧
    ∀ i : ℕ, (loopVersion df)[i]? = (whereVersion df)[i]? := by
  have h : loopVersion df = whereVersion df := by
    rw [loopVersion_eq_map, whereVersion_eq_map]
  exact ⟨h, fun i => by rw [h]⟩
